import Mathlib

/-!
Verification development for the tarkov-data repository.

The repository consists of three Python scripts:
  * `eft_api_client.py`   — `EFTClient`: login plus `/client/*` data endpoints;
  * `eft_bsg_client.py`   — `EFTLauncher` (login / hardware activation / game
    start) and a second `EFTClient` (game-client requests with a request-id
    counter), plus a persisted hardware code;
  * `tarkov_api_client.py` — `TarkovDevClient`: GraphQL queries against the
    public tarkov.dev API.

This file gives a shallow embedding of the data model and of the functions the
claims are about.  Python values that flow through the scripts are modelled by
`JValue`; Python exceptions by `PyErr`; library calls (zlib, json, the
`requests` text decoding) by an explicit environment `PyEnv`; `hashlib.md5` is
modelled concretely, bit for bit, by `md5Bytes` below.
-/

namespace TarkovData

/-- Model of the Python values the scripts handle: the JSON universe plus
`None`.  Python `None` is `JValue.null`. -/
inductive JValue where
  | null : JValue
  | bool : Bool → JValue
  | num : Int → JValue
  | str : String → JValue
  | arr : List JValue → JValue
  | obj : List (String × JValue) → JValue

/-- Python exceptions that can arise on the modelled paths. -/
inductive PyErr where
  | attributeError : PyErr
  | unicodeDecodeError : PyErr
  | jsonDecodeError : PyErr
  | httpError : PyErr
  | generic : String → PyErr
  deriving DecidableEq, Repr

/-- Key lookup in the association list backing a Python dict. -/
def jLookup : List (String × JValue) → String → Option JValue
  | [], _ => none
  | (k, v) :: rest, key => if k = key then some v else jLookup rest key

/-- Python `d.get(key, default)`: succeeds on dicts, raises `AttributeError`
on any other receiver. -/
def pyGet (v : JValue) (key : String) (dflt : JValue) : Except PyErr JValue :=
  match v with
  | .obj kvs => .ok ((jLookup kvs key).getD dflt)
  | _ => .error .attributeError

/-- Python `key in d` for a dict receiver (`False` elsewhere; the scripts only
use it after a successful `.get`, i.e. on dicts). -/
def pyHasKey (v : JValue) (key : String) : Bool :=
  match v with
  | .obj kvs => (jLookup kvs key).isSome
  | _ => false

mutual

/-- Python `==` on the modelled values: structural on containers, with the
numeric coercion `True == 1`, `False == 0`. -/
def pyEq : JValue → JValue → Bool
  | .null, .null => true
  | .bool a, .bool b => a == b
  | .bool a, .num n => (if a then (1 : Int) else 0) == n
  | .num n, .bool b => n == (if b then (1 : Int) else 0)
  | .num a, .num b => a == b
  | .str a, .str b => a == b
  | .arr a, .arr b => pyEqList a b
  | .obj a, .obj b => pyEqObj a b
  | _, _ => false

def pyEqList : List JValue → List JValue → Bool
  | [], [] => true
  | a :: as_, b :: bs => pyEq a b && pyEqList as_ bs
  | _, _ => false

def pyEqObj : List (String × JValue) → List (String × JValue) → Bool
  | [], [] => true
  | (ka, va) :: as_, (kb, vb) :: bs => ka == kb && pyEq va vb && pyEqObj as_ bs
  | _, _ => false

end

/-- Python truthiness of the modelled values. -/
def pyTruthy : JValue → Bool
  | .null => false
  | .bool b => b
  | .num n => n != 0
  | .str s => s != ""
  | .arr [] => false
  | .arr (_ :: _) => true
  | .obj [] => false
  | .obj (_ :: _) => true

/-! ### hashlib.md5, modelled concretely

The scripts call `hashlib.md5(...).hexdigest()` in three places
(`_compute_password_hash`, `_md5_password`, `_safe_email`,
`_generate_hw_code`).  We embed MD5 itself (RFC 1321) over byte lists. -/

/-- The constant `2 ^ 32`, the word modulus of MD5. -/
def M32 : Nat := 4294967296

/-- Addition modulo `2 ^ 32`. -/
def add32 (a b : Nat) : Nat := (a + b) % M32

/-- Left rotation of a 32-bit word (callers keep `x < 2 ^ 32`, `n ≤ 32`). -/
def rotl32 (x n : Nat) : Nat :=
  (x % 2 ^ (32 - n)) * 2 ^ n + x / 2 ^ (32 - n)

/-- Bitwise complement on 32 bits. -/
def not32 (x : Nat) : Nat := (M32 - 1) - x % M32

/-- The 64 MD5 sine-derived round constants. -/
def md5K : List Nat :=
  [3614090360, 3905402710, 606105819, 3250441966, 4118548399, 1200080426, 2821735955, 4249261313,
   1770035416, 2336552879, 4294925233, 2304563134, 1804603682, 4254626195, 2792965006, 1236535329,
   4129170786, 3225465664, 643717713, 3921069994, 3593408605, 38016083, 3634488961, 3889429448,
   568446438, 3275163606, 4107603335, 1163531501, 2850285829, 4243563512, 1735328473, 2368359562,
   4294588738, 2272392833, 1839030562, 4259657740, 2763975236, 1272893353, 4139469664, 3200236656,
   681279174, 3936430074, 3572445317, 76029189, 3654602809, 3873151461, 530742520, 3299628645,
   4096336452, 1126891415, 2878612391, 4237533241, 1700485571, 2399980690, 4293915773, 2240044497,
   1873313359, 4264355552, 2734768916, 1309151649, 4149444226, 3174756917, 718787259, 3951481745]

/-- The 64 MD5 per-round left-rotation amounts. -/
def md5S : List Nat :=
  [7, 12, 17, 22, 7, 12, 17, 22, 7, 12, 17, 22, 7, 12, 17, 22,
   5, 9, 14, 20, 5, 9, 14, 20, 5, 9, 14, 20, 5, 9, 14, 20,
   4, 11, 16, 23, 4, 11, 16, 23, 4, 11, 16, 23, 4, 11, 16, 23,
   6, 10, 15, 21, 6, 10, 15, 21, 6, 10, 15, 21, 6, 10, 15, 21]

/-- Little-endian packing of bytes into 32-bit words. -/
def bytesToWordsLE : List Nat → List Nat
  | b0 :: b1 :: b2 :: b3 :: rest =>
      (b0 + 256 * b1 + 65536 * b2 + 16777216 * b3) :: bytesToWordsLE rest
  | _ => []

/-- One MD5 round: `st` is the running `(a, b, c, d)`, `M` the 16 message
words of the current block, `i` the round index. -/
def md5Round (M : List Nat) (st : Nat × Nat × Nat × Nat) (i : Nat) :
    Nat × Nat × Nat × Nat :=
  let (a, b, c, d) := st
  let fg : Nat × Nat :=
    if i < 16 then (Nat.lor (Nat.land b c) (Nat.land (not32 b) d), i)
    else if i < 32 then (Nat.lor (Nat.land d b) (Nat.land (not32 d) c), (5 * i + 1) % 16)
    else if i < 48 then (Nat.xor b (Nat.xor c d), (3 * i + 5) % 16)
    else (Nat.xor c (Nat.lor b (not32 d)), (7 * i) % 16)
  let tmp := add32 (add32 (add32 a fg.1) (md5K.getD i 0)) (M.getD fg.2 0)
  (d, add32 b (rotl32 tmp (md5S.getD i 0)), b, c)

/-- Process one 64-byte block. -/
def md5Block (st : Nat × Nat × Nat × Nat) (block : List Nat) :
    Nat × Nat × Nat × Nat :=
  let M := bytesToWordsLE block
  let (a2, b2, c2, d2) := (List.range 64).foldl (md5Round M) st
  (add32 st.1 a2, add32 st.2.1 b2, add32 st.2.2.1 c2, add32 st.2.2.2 d2)

/-- Split a byte list into 64-byte chunks (`fuel` bounds the recursion; the
callers pass `length + 1`). -/
def chunks64 : Nat → List Nat → List (List Nat)
  | 0, _ => []
  | _, [] => []
  | fuel + 1, l => l.take 64 :: chunks64 fuel (l.drop 64)

/-- MD5 padding: append `0x80`, zero bytes up to 56 mod 64, then the bit
length as 8 little-endian bytes. -/
def md5Pad (msg : List Nat) : List Nat :=
  let L := msg.length
  let zeros := (120 - (L + 1) % 64) % 64
  let bitLen := 8 * L % 2 ^ 64
  msg ++ 128 :: List.replicate zeros 0 ++
    [bitLen % 256, bitLen / 2 ^ 8 % 256, bitLen / 2 ^ 16 % 256, bitLen / 2 ^ 24 % 256,
     bitLen / 2 ^ 32 % 256, bitLen / 2 ^ 40 % 256, bitLen / 2 ^ 48 % 256, bitLen / 2 ^ 56 % 256]

/-- Serialize one 32-bit word to 4 little-endian bytes. -/
def wordToBytesLE (w : Nat) : List Nat :=
  [w % 256, w / 256 % 256, w / 65536 % 256, w / 16777216 % 256]

/-- The 16-byte MD5 digest of a byte string. -/
def md5Bytes (msg : List Nat) : List Nat :=
  let padded := md5Pad msg
  let st := (chunks64 (padded.length + 1) padded).foldl md5Block
    (1732584193, 4023233417, 2562383102, 271733878)
  wordToBytesLE st.1 ++ wordToBytesLE st.2.1 ++ wordToBytesLE st.2.2.1 ++ wordToBytesLE st.2.2.2

/-- Lowercase hex digit for `n < 16`. -/
def hexDigitChar (n : Nat) : Char :=
  if n < 10 then Char.ofNat (48 + n) else Char.ofNat (87 + n)

/-- Two lowercase hex characters for one byte. -/
def byteHexChars (b : Nat) : List Char :=
  [hexDigitChar (b / 16 % 16), hexDigitChar (b % 16)]

/-- The 32 characters of `hashlib.md5(msg).hexdigest()`. -/
def md5HexChars (msg : List Nat) : List Char :=
  (md5Bytes msg).foldr (fun b acc => byteHexChars b ++ acc) []

/-- The digest `hashlib.md5(msg).hexdigest()` as a string. -/
def md5Hex (msg : List Nat) : String :=
  String.mk (md5HexChars msg)

/-- The sixteen lowercase hex digits. -/
def lowercaseHexDigits : List Char := "0123456789abcdef".data

/-- UTF-8 encoding of one character (Python `str.encode` on one code point). -/
def utf8EncodeChar (c : Char) : List Nat :=
  let n := c.toNat
  if n < 128 then [n]
  else if n < 2048 then [192 + n / 64, 128 + n % 64]
  else if n < 65536 then [224 + n / 4096, 128 + n / 64 % 64, 128 + n % 64]
  else [240 + n / 262144, 128 + n / 4096 % 64, 128 + n / 64 % 64, 128 + n % 64]

/-- Python `s.encode()`: the UTF-8 bytes of a string. -/
def utf8Bytes (s : String) : List Nat :=
  s.data.foldr (fun c acc => utf8EncodeChar c ++ acc) []

/-! ### The HTTP/decode layer

The scripts' request helpers receive an HTTP response and decode it.  The
external libraries (zlib, `json`, the UTF-8 codec used by `bytes.decode` and
by `requests` when building `response.text` / `response.json()`) are modelled
by an explicit environment `PyEnv`; `none` models the library raising
(`zlib.error`, `UnicodeDecodeError`, `json.JSONDecodeError`). -/

/-- Model of the library functions the decode paths call. -/
structure PyEnv where
  zlibDecompress : List Nat → Option (List Nat)
  zlibCompress : List Nat → List Nat
  utf8Decode : List Nat → Option String
  jsonParse : String → Option JValue
  jsonSerialize : JValue → String

/-- An HTTP response as the scripts see it: `response.content` (bytes),
`response.text` (the bytes as text, as decoded by `requests`), and
`response.status_code`. -/
structure HttpResponse where
  content : List Nat
  text : String
  status : Nat

/-- Python `s[:n]` on a string: the first `n` characters. -/
def pySlice (s : String) (n : Nat) : String :=
  String.mk (s.data.take n)

namespace EFTApi

/-- Model of `EFTClient._compute_password_hash` of `eft_api_client.py`:
`hashlib.md5(password.encode()).hexdigest()`. -/
def compute_password_hash (password : String) : String :=
  md5Hex (utf8Bytes password)

/-- Model of `EFTClient._decompress_response`: try `zlib.decompress(data).decode('utf-8')`,
on `zlib.error` fall back to `data.decode('utf-8')`; a `UnicodeDecodeError`
from either branch escapes to the caller. -/
def decompress_response (env : PyEnv) (data : List Nat) : Except PyErr String :=
  match env.zlibDecompress data with
  | some d =>
    match env.utf8Decode d with
    | some s => .ok s
    | none => .error .unicodeDecodeError
  | none =>
    match env.utf8Decode data with
    | some s => .ok s
    | none => .error .unicodeDecodeError

/-- The dict `eft_api_client.py`'s `_request` returns when parsing fails:
`{"error": "Failed to parse response", "raw": response.text[:500]}`. -/
def parse_error_value (text : String) : JValue :=
  .obj [("error", .str "Failed to parse response"), ("raw", .str (pySlice text 500))]

/-- The decode path of `EFTClient._request`: decompress, `json.loads`, and on
`json.JSONDecodeError` or `UnicodeDecodeError` return the diagnostic dict.
All exceptions the body can raise are caught, so the result is total. -/
def request_decode (env : PyEnv) (resp : HttpResponse) : JValue :=
  match decompress_response env resp.content with
  | .ok content =>
    match env.jsonParse content with
    | some v => v
    | none => parse_error_value resp.text
  | .error _ => parse_error_value resp.text

/-- The `login_data` dict assembled by `EFTClient.login`. -/
def login_data (email password : String) : JValue :=
  .obj [("email", .str email), ("pass", .str (compute_password_hash password)),
        ("hwCode", .str "generated_hardware_code"), ("captcha", .null)]

end EFTApi

namespace Bsg

/-- Model of `EFTLauncher._md5_password` of `eft_bsg_client.py`:
`hashlib.md5(self.password.encode()).hexdigest()`. -/
def md5_password (password : String) : String :=
  md5Hex (utf8Bytes password)

/-- The `data` dict assembled by `EFTLauncher.login`. -/
def login_payload (email password hwCode : String) : JValue :=
  .obj [("email", .str email), ("pass", .str (md5_password password)),
        ("hwCode", .str hwCode)]

/-- The dict `EFTLauncher._request` returns when the fallback parse fails:
`{"error": "Parse error", "raw": response.text[:500], "status": response.status_code}`. -/
def parse_error_value (resp : HttpResponse) : JValue :=
  .obj [("error", .str "Parse error"), ("raw", .str (pySlice resp.text 500)),
        ("status", .num (resp.status : Int))]

/-- The decode path of `EFTLauncher._request`: `zlib.decompress` then
`json.loads`; on `zlib.error` fall back to `response.json()`, and if that
raises too, return the diagnostic dict (bare `except`).  A
`UnicodeDecodeError`/`json.JSONDecodeError` after a *successful* decompression
is not caught and escapes (`.error` here). -/
def launcher_request_decode (env : PyEnv) (resp : HttpResponse) : Except PyErr JValue :=
  match env.zlibDecompress resp.content with
  | some content =>
    match env.utf8Decode content with
    | none => .error .unicodeDecodeError
    | some s =>
      match env.jsonParse s with
      | some v => .ok v
      | none => .error .jsonDecodeError
  | none =>
    match env.jsonParse resp.text with
    | some v => .ok v
    | none => .ok (parse_error_value resp)

end Bsg

namespace TarkovDev

/-- The decode portion of `TarkovDevClient._query` of `tarkov_api_client.py`:
`response.raise_for_status()` (which raises `HTTPError` for any status in
`[400, 600)`) followed by `response.json()`. -/
def query_decode (env : PyEnv) (resp : HttpResponse) : Except PyErr JValue :=
  if 400 ≤ resp.status ∧ resp.status < 600 then .error .httpError
  else
    match env.jsonParse resp.text with
    | some v => .ok v
    | none => .error .jsonDecodeError

end TarkovDev

/-! A small concrete `PyEnv` used to instantiate the environment-parametric
theorems: a lossless marker-byte compressor, an ASCII-only text codec and a
one-value JSON codec. -/

/-- Toy JSON parse: recognizes only the text `null`. -/
def toyJsonParse (s : String) : Option JValue :=
  if s = "null" then some .null else none

/-- Toy text decode: accepts ASCII byte lists only. -/
def toyUtf8Decode (bs : List Nat) : Option String :=
  if bs.all (· < 128) then some (String.mk (bs.map Char.ofNat)) else none

/-- A concrete environment whose compressor is lossless. -/
def toyEnv : PyEnv where
  zlibDecompress bs :=
    match bs with
    | 0 :: rest => some rest
    | _ => none
  zlibCompress bs := 0 :: bs
  utf8Decode := toyUtf8Decode
  jsonParse := toyJsonParse
  jsonSerialize _ := "null"

/-! ### Python indexing -/

/-- Python `d[key]`: `KeyError` on a missing key, `TypeError` on a non-dict
receiver. -/
def pyIndex (v : JValue) (key : String) : Except PyErr JValue :=
  match v with
  | .obj kvs =>
    match jLookup kvs key with
    | some x => .ok x
    | none => .error (.generic "KeyError")
  | _ => .error (.generic "TypeError")

namespace Bsg

/-! ### The EFTLauncher session lifecycle

`EFTLauncher` stores `self.token` and `self.game_session`, both initially
`None`.  Each lifecycle call sends a request and inspects the decoded
response; we model the call as a function of the current state and of the
decoded response (`Except PyErr JValue`: `.error` models `_request` itself
raising).  The result is the Python return value (or the escaped exception)
paired with the state after the call. -/

/-- The token-carrying state of `EFTLauncher` (`self.token`,
`self.game_session`; Python `None` is `JValue.null`). -/
structure LauncherState where
  token : JValue
  game_session : JValue

/-- The state set up by `EFTLauncher.__init__`: both tokens are `None`. -/
def initState : LauncherState := ⟨.null, .null⟩

/-- Model of `EFTLauncher.login`: on `err == 0 and "data" in response` store
`response["data"].get("access_token")` and return `True`; otherwise print and
return `False`.  Exceptions escape before any assignment. -/
def login (st : LauncherState) (resp : Except PyErr JValue) :
    Except PyErr Bool × LauncherState :=
  match resp with
  | .error e => (.error e, st)
  | .ok r =>
    match pyGet r "err" .null with
    | .error e => (.error e, st)
    | .ok errv =>
      if pyEq errv (.num 0) && pyHasKey r "data" then
        match pyIndex r "data" with
        | .error e => (.error e, st)
        | .ok datav =>
          match pyGet datav "access_token" .null with
          | .error e => (.error e, st)
          | .ok tok => (.ok true, { st with token := tok })
      else (.ok false, st)

/-- Model of `EFTLauncher.activate_hardware`: inspects `err` and returns `True`/`False`;
never assigns to `self.token` or `self.game_session`. -/
def activate_hardware (st : LauncherState) (resp : Except PyErr JValue) :
    Except PyErr Bool × LauncherState :=
  match resp with
  | .error e => (.error e, st)
  | .ok r =>
    match pyGet r "err" .null with
    | .error e => (.error e, st)
    | .ok errv => if pyEq errv (.num 0) then (.ok true, st) else (.ok false, st)

/-- Model of `EFTLauncher.start_game`: `if not self.token: return False`; otherwise on
`err == 0 and "data" in response` store `response["data"].get("session")` and
return `True`, else return `False`. -/
def start_game (st : LauncherState) (resp : Except PyErr JValue) :
    Except PyErr Bool × LauncherState :=
  if !(pyTruthy st.token) then (.ok false, st)
  else
    match resp with
    | .error e => (.error e, st)
    | .ok r =>
      match pyGet r "err" .null with
      | .error e => (.error e, st)
      | .ok errv =>
        if pyEq errv (.num 0) && pyHasKey r "data" then
          match pyIndex r "data" with
          | .error e => (.error e, st)
          | .ok datav =>
            match pyGet datav "session" .null with
            | .error e => (.error e, st)
            | .ok sess => (.ok true, { st with game_session := sess })
        else (.ok false, st)

/-! ### The persisted hardware code -/

/-- Model of `EFTLauncher._safe_email`:
`hashlib.md5(self.email.encode()).hexdigest()[:12]`. -/
def safe_email (email : String) : String :=
  String.mk ((md5HexChars (utf8Bytes email)).take 12)

/-- The identifier file `Path(".eft_storage") / self._safe_email() / "hwcode.txt"`,
as its path components. -/
def hw_file_path (email : String) : List String :=
  [".eft_storage", safe_email email, "hwcode.txt"]

/-- Model of `EFTLauncher._generate_hw_code`, parametrized by the eight
`secrets.token_bytes(16)` outcomes that `random_md5` hashes. -/
def generate_hw_code (s1 s2 s3 s4 s5 s6 s7 s8 : List Nat) : String :=
  let part1 := md5Hex s1 ++ ":" ++ md5Hex s2 ++ ":" ++ md5Hex s3
  let part2 := md5Hex s4 ++ "-" ++ md5Hex s5 ++ "-" ++ md5Hex s6 ++ "-" ++ md5Hex s7
  let part3 := pySlice (md5Hex s8) 24
  "#1-" ++ part1 ++ "-" ++ part2 ++ "-" ++ part3

/-- The local filesystem, as a partial map from paths to file contents. -/
def FileSys : Type := List String → Option String

/-- Writing a file. -/
def fsWrite (fs : FileSys) (p : List String) (content : String) : FileSys :=
  fun q => if q = p then some content else fs q

/-- Python `str.strip()` restricted to its ASCII whitespace. -/
def isPySpace (c : Char) : Bool :=
  c == ' ' || c == '\t' || c == '\n' || c == '\r' || c == '\x0b' || c == '\x0c'

/-- Python `s.strip()`. -/
def pyStrip (s : String) : String :=
  String.mk (((s.data.dropWhile isPySpace).reverse.dropWhile isPySpace).reverse)

/-- Model of `EFTLauncher._get_or_create_hw_code`: read `hwcode.txt` and `.strip()` it
if it exists, else generate a fresh code and write it. -/
def get_or_create_hw_code (fs : FileSys) (email : String)
    (s1 s2 s3 s4 s5 s6 s7 s8 : List Nat) : String × FileSys :=
  match fs (hw_file_path email) with
  | some stored => (pyStrip stored, fs)
  | none =>
    let code := generate_hw_code s1 s2 s3 s4 s5 s6 s7 s8
    (code, fsWrite fs (hw_file_path email) code)

/-! ### The game client request counter

`EFTClient.__init__` (of `eft_bsg_client.py`) sets `self.request_id = 0`;
`EFTClient._headers` increments it and attaches
`headers["GClient-RequestId"] = str(self.request_id)` on top of
`launcher._client_headers()`; `EFTClient._request` recomputes the headers
exactly once per request. -/

/-- The mutable counter owned by the game client. -/
structure GameClient where
  request_id : Nat
  deriving DecidableEq, Repr

/-- String interpolation of a stored session value into the `PHPSESSID`
cookie (`None` prints as `None`; the session is a string or `None` on the
code's paths, so container formatting is irrelevant and abstracted). -/
def pyInterp : JValue → String
  | .null => "None"
  | .str s => s
  | .bool true => "True"
  | .bool false => "False"
  | .num n => toString n
  | .arr _ => "<list>"
  | .obj _ => "<dict>"

/-- Model of `EFTLauncher._client_headers`. -/
def client_headers (st : LauncherState) (unity_version client_version : String) :
    List (String × String) :=
  [("Content-Type", "application/json"),
   ("User-Agent", "UnityPlayer/" ++ unity_version ++ " (UnityWebRequest/1.0, libcurl/7.52.0-DEV)"),
   ("App-Version", "EFT Client " ++ client_version),
   ("X-Unity-Version", unity_version),
   ("Cookie", "PHPSESSID=" ++ pyInterp st.game_session)]

/-- Model of `EFTClient._headers`: increment `request_id`, then the launcher client
headers plus the `GClient-RequestId` entry. -/
def headers (st : LauncherState) (uv cv : String) (client : GameClient) :
    GameClient × List (String × String) :=
  let rid := client.request_id + 1
  (⟨rid⟩, client_headers st uv cv ++ [("GClient-RequestId", toString rid)])

/-- Lookup in a header list. -/
def headerLookup : List (String × String) → String → Option String
  | [], _ => none
  | (k, v) :: rest, key => if k = key then some v else headerLookup rest key

/-- A run of `n` consecutive `EFTClient._request` calls: each one recomputes the
headers once; we collect the attached `GClient-RequestId` values. -/
def runRequests (st : LauncherState) (uv cv : String) :
    Nat → GameClient → GameClient × List String
  | 0, c => (c, [])
  | n + 1, c =>
    let r := headers st uv cv c
    let rest := runRequests st uv cv n r.1
    (rest.1, ((headerLookup r.2 "GClient-RequestId").getD "") :: rest.2)

/-! ### The per-endpoint loop of `main` (`eft_bsg_client.py`, lines 436-447)

Each entry is a name paired with what its fetch produced (`.error` models the
fetch raising; the loop's `except Exception` turns that into a recorded
failure).  On `data.get("err") == 0` the loop writes `f"{name}.json"`. -/

/-- The outcome the loop records for one entry. -/
inductive FetchOutcome where
  | saved : String → FetchOutcome
  | failed : FetchOutcome
  deriving DecidableEq, Repr

/-- Whether an entry's fetch counts as a success: no exception and
`data.get("err") == 0` (a `.get` on a non-dict raises and is caught too). -/
def entry_ok (res : Except PyErr JValue) : Bool :=
  match res with
  | .error _ => false
  | .ok d =>
    match pyGet d "err" .null with
    | .error _ => false
    | .ok errv => pyEq errv (.num 0)

/-- The loop body for one entry. -/
def process_entry (e : String × Except PyErr JValue) : FetchOutcome :=
  if entry_ok e.2 then .saved (e.1 ++ ".json") else .failed

/-- The `for name, func in endpoints:` loop: processes every entry in order,
one outcome each. -/
def run_endpoints : List (String × Except PyErr JValue) → List FetchOutcome
  | [] => []
  | e :: rest => process_entry e :: run_endpoints rest

end Bsg

namespace TarkovDev

/-! ### Extraction of GraphQL results (`tarkov_api_client.py`)

Each query method ends with `result.get("data", {}).get(field, default)`. -/

/-- Extraction step of `get_all_items`: `result.get("data", {}).get("items", [])`. -/
def get_all_items_extract (resp : JValue) : Except PyErr JValue :=
  (pyGet resp "data" (.obj [])).bind (fun d => pyGet d "items" (.arr []))

/-- Extraction step of `get_all_maps`: `result.get("data", {}).get("maps", [])`. -/
def get_all_maps_extract (resp : JValue) : Except PyErr JValue :=
  (pyGet resp "data" (.obj [])).bind (fun d => pyGet d "maps" (.arr []))

/-- Extraction step of `get_barters`: `result.get("data", {}).get("barters", [])`. -/
def get_barters_extract (resp : JValue) : Except PyErr JValue :=
  (pyGet resp "data" (.obj [])).bind (fun d => pyGet d "barters" (.arr []))

/-- Extraction step of `get_item_by_id`: `result.get("data", {}).get("item")` (default `None`). -/
def get_item_by_id_extract (resp : JValue) : Except PyErr JValue :=
  (pyGet resp "data" (.obj [])).bind (fun d => pyGet d "item" .null)

end TarkovDev

end TarkovData

/-! Sanity checks of the MD5 embedding against the RFC 1321 test vectors. -/

set_option maxRecDepth 100000

/-- MD5 of the empty message matches the RFC 1321 test suite. -/
theorem TarkovData.md5_rfc_empty : TarkovData.md5Hex [] = "d41d8cd98f00b204e9800998ecf8427e" := by
  decide

/-- MD5 of `"abc"` matches the RFC 1321 test suite. -/
theorem TarkovData.md5_rfc_abc :
    TarkovData.md5Hex (TarkovData.utf8Bytes "abc") = "900150983cd24fb0d6963f7d28e17f72" := by
  decide

namespace TarkovData

/-! ### Helper lemmas -/

/-- Appending strings appends their character lists. -/
theorem string_data_append (s t : String) : (s ++ t).data = s.data ++ t.data := by
  cases s
  cases t
  rfl

/-- Appending `String.mk`s is `String.mk` of the appended lists. -/
theorem string_mk_append (a b : List Char) : String.mk a ++ String.mk b = String.mk (a ++ b) := by
  rfl

/-- The MD5 digest always has 16 bytes. -/
theorem md5Bytes_length (msg : List Nat) : (md5Bytes msg).length = 16 := by
  unfold md5Bytes
  simp [wordToBytesLE]

/-- Folding `byteHexChars` over a byte list yields two characters per byte. -/
theorem foldr_hex_length (l : List Nat) :
    (l.foldr (fun b acc => byteHexChars b ++ acc) []).length = 2 * l.length := by
  induction l with
  | nil => simp
  | cons b rest ih =>
    rw [List.foldr_cons, List.length_append, ih, List.length_cons]
    rw [show (byteHexChars b).length = 2 from rfl]
    omega

/-- The `hexdigest` always has 32 characters. -/
theorem md5HexChars_length (msg : List Nat) : (md5HexChars msg).length = 32 := by
  unfold md5HexChars
  rw [foldr_hex_length, md5Bytes_length]

/-- Applying `hexDigitChar` to a value below 16 is a lowercase hex digit. -/
theorem hexDigitChar_mem_of_lt {m : Nat} (h : m < 16) :
    hexDigitChar m ∈ lowercaseHexDigits := by
  interval_cases m <;> decide

/-- Both characters of `byteHexChars` are lowercase hex digits. -/
theorem byteHexChars_subset (b : Nat) {c : Char} (hc : c ∈ byteHexChars b) :
    c ∈ lowercaseHexDigits := by
  simp [byteHexChars] at hc
  rcases hc with h | h <;>
    exact h ▸ hexDigitChar_mem_of_lt (Nat.mod_lt _ (by norm_num))

/-- Every character produced by folding `byteHexChars` over a byte list is a
lowercase hex digit. -/
theorem foldr_hex_mem {c : Char} (l : List Nat)
    (hc : c ∈ l.foldr (fun b acc => byteHexChars b ++ acc) []) :
    c ∈ lowercaseHexDigits := by
  induction l with
  | nil => exact absurd hc (List.not_mem_nil c)
  | cons b rest ih =>
    rw [List.foldr_cons] at hc
    rcases List.mem_append.mp hc with h | h
    · exact byteHexChars_subset b h
    · exact ih h

/-- Every character of a `hexdigest` is a lowercase hex digit. -/
theorem md5HexChars_mem (msg : List Nat) {c : Char} (hc : c ∈ md5HexChars msg) :
    c ∈ lowercaseHexDigits :=
  foldr_hex_mem (md5Bytes msg) hc

namespace Bsg

/-- The generated hardware code, decomposed into its character groups. -/
theorem generate_hw_code_eq (s1 s2 s3 s4 s5 s6 s7 s8 : List Nat) :
    generate_hw_code s1 s2 s3 s4 s5 s6 s7 s8 =
      String.mk (['#', '1', '-'] ++ md5HexChars s1 ++ [':'] ++ md5HexChars s2 ++ [':'] ++
        md5HexChars s3 ++ ['-'] ++ md5HexChars s4 ++ ['-'] ++ md5HexChars s5 ++ ['-'] ++
        md5HexChars s6 ++ ['-'] ++ md5HexChars s7 ++ ['-'] ++ (md5HexChars s8).take 24) := by
  unfold generate_hw_code md5Hex pySlice
  rw [show ("#1-" : String) = String.mk ['#', '1', '-'] from rfl,
      show (":" : String) = String.mk [':'] from rfl,
      show ("-" : String) = String.mk ['-'] from rfl]
  simp only [string_mk_append, List.append_assoc]

/-- No character of a generated hardware code is whitespace. -/
theorem generate_hw_code_no_space (s1 s2 s3 s4 s5 s6 s7 s8 : List Nat) :
    ∀ c ∈ (generate_hw_code s1 s2 s3 s4 s5 s6 s7 s8).data, isPySpace c = false := by
  have hx : ∀ d ∈ lowercaseHexDigits, isPySpace d = false := by decide
  intro c hc
  rw [generate_hw_code_eq] at hc
  simp only [List.append_assoc, List.mem_append] at hc
  rcases hc with h | h | h | h | h | h | h | h | h | h | h | h | h | h | h | h
  all_goals first
    | exact hx c (md5HexChars_mem _ h)
    | exact hx c (md5HexChars_mem _ (List.take_subset _ _ h))
    | (fin_cases h <;> decide)

/-- Lemma: `dropWhile` is the identity when no element satisfies the predicate. -/
theorem dropWhile_eq_self_of_none {p : Char → Bool} : ∀ {l : List Char},
    (∀ c ∈ l, p c = false) → l.dropWhile p = l
  | [], _ => rfl
  | a :: rest, h => by
    rw [List.dropWhile_cons, h a (List.mem_cons_self a rest)]
    simp

/-- Lemma: `str.strip()` is the identity on a string without whitespace. -/
theorem pyStrip_eq_self {s : String} (h : ∀ c ∈ s.data, isPySpace c = false) :
    pyStrip s = s := by
  unfold pyStrip
  rw [dropWhile_eq_self_of_none h,
      dropWhile_eq_self_of_none (fun c hc => h c (List.mem_reverse.mp hc)),
      List.reverse_reverse]

/-- Stripping a generated hardware code changes nothing. -/
theorem pyStrip_generate_hw_code (s1 s2 s3 s4 s5 s6 s7 s8 : List Nat) :
    pyStrip (generate_hw_code s1 s2 s3 s4 s5 s6 s7 s8) =
      generate_hw_code s1 s2 s3 s4 s5 s6 s7 s8 :=
  pyStrip_eq_self (generate_hw_code_no_space s1 s2 s3 s4 s5 s6 s7 s8)

end Bsg

end TarkovData

namespace TarkovData

/-! ### Claim C1 -/

/-- C1 as frozen speaks of a prefix of at most 500 *bytes*; the code slices
`response.text[:500]`, i.e. 500 *characters*, and a character may occupy
several UTF-8 bytes.  Concretely: a response body of 501 copies of the
two-byte character `é` is neither valid zlib nor valid JSON, and the
diagnostic value carries a 500-character raw field of 1000 UTF-8 bytes. -/
theorem claim1_counterexample :
    EFTApi.request_decode toyEnv
        ⟨utf8Bytes (String.mk (List.replicate 501 'é')),
         String.mk (List.replicate 501 'é'), 200⟩ =
      EFTApi.parse_error_value (String.mk (List.replicate 501 'é')) ∧
    (utf8Bytes (pySlice (String.mk (List.replicate 501 'é')) 500)).length = 1000 ∧
    500 < 1000 := by
  refine ⟨rfl, by decide, by decide⟩

/-- C1 (amended: the cap is 500 characters of the raw text): for bytes that
are neither valid zlib data (`zlibDecompress` raises) nor valid JSON text,
both request helpers return their structured diagnostic value carrying
`response.text[:500]` — a prefix of at most 500 characters — and no exception
escapes (the `eft_api` path is total; the launcher path returns `.ok`). -/
theorem claim1_decode_error_path (env : PyEnv) (resp : HttpResponse)
    (hz : env.zlibDecompress resp.content = none)
    (hc : ∀ s, env.utf8Decode resp.content = some s → env.jsonParse s = none)
    (ht : env.jsonParse resp.text = none) :
    EFTApi.request_decode env resp = EFTApi.parse_error_value resp.text ∧
    Bsg.launcher_request_decode env resp = .ok (Bsg.parse_error_value resp) ∧
    (pySlice resp.text 500).length ≤ 500 := by
  refine ⟨?_, ?_, ?_⟩
  · unfold EFTApi.request_decode EFTApi.decompress_response
    rw [hz]
    cases hu : env.utf8Decode resp.content with
    | none => rfl
    | some s =>
      show (match env.jsonParse s with
            | some v => v
            | none => EFTApi.parse_error_value resp.text) =
        EFTApi.parse_error_value resp.text
      rw [hc s hu]
  · unfold Bsg.launcher_request_decode
    rw [hz, ht]
  · exact List.length_take_le 500 resp.text.data

/-- Witness for C1: concrete non-zlib non-JSON bytes against the concrete
environment. -/
theorem claim1_decode_error_path_witness :
    EFTApi.request_decode toyEnv ⟨[200], "hello", 200⟩ =
      EFTApi.parse_error_value "hello" ∧
    Bsg.launcher_request_decode toyEnv ⟨[200], "hello", 200⟩ =
      .ok (Bsg.parse_error_value ⟨[200], "hello", 200⟩) ∧
    (pySlice "hello" 500).length ≤ 500 :=
  claim1_decode_error_path toyEnv ⟨[200], "hello", 200⟩ rfl
    (fun s h => absurd h (by simp [toyEnv, toyUtf8Decode])) rfl

/-! ### Claim C2 -/

/-- Lemma: `EFTLauncher.login` either returns `True` or leaves the state untouched. -/
theorem login_state (st : Bsg.LauncherState) (resp : Except PyErr JValue) :
    (Bsg.login st resp).1 = .ok true ∨ (Bsg.login st resp).2 = st := by
  unfold Bsg.login
  repeat' split
  all_goals first | (left; rfl) | (right; rfl)

/-- Lemma: `EFTLauncher.start_game` either returns `True` or leaves the state
untouched. -/
theorem start_game_state (st : Bsg.LauncherState) (resp : Except PyErr JValue) :
    (Bsg.start_game st resp).1 = .ok true ∨ (Bsg.start_game st resp).2 = st := by
  unfold Bsg.start_game
  repeat' split
  all_goals first | (left; rfl) | (right; rfl)

/-- Lemma: `EFTLauncher.activate_hardware` never touches the stored tokens. -/
theorem activate_hardware_state (st : Bsg.LauncherState) (resp : Except PyErr JValue) :
    (Bsg.activate_hardware st resp).2 = st := by
  unfold Bsg.activate_hardware
  repeat' split
  all_goals rfl

/-- C2: `start_game` with no stored access token (`self.token is None`) fails
and changes nothing; any `login`/`start_game` call that does not return
`True` (it returned `False` or raised) leaves `self.token` and
`self.game_session` exactly as they were; `activate_hardware` never changes
them. -/
theorem claim2_lifecycle_failure_preserves_state :
    (∀ (st : Bsg.LauncherState) (resp : Except PyErr JValue),
      st.token = .null → Bsg.start_game st resp = (.ok false, st)) ∧
    (∀ (st : Bsg.LauncherState) (resp : Except PyErr JValue),
      (Bsg.login st resp).1 ≠ .ok true → (Bsg.login st resp).2 = st) ∧
    (∀ (st : Bsg.LauncherState) (resp : Except PyErr JValue),
      (Bsg.start_game st resp).1 ≠ .ok true → (Bsg.start_game st resp).2 = st) ∧
    (∀ (st : Bsg.LauncherState) (resp : Except PyErr JValue),
      (Bsg.activate_hardware st resp).2 = st) := by
  refine ⟨?_, ?_, ?_, fun st resp => activate_hardware_state st resp⟩
  · intro st resp h
    unfold Bsg.start_game
    rw [h]
    rfl
  · intro st resp h
    rcases login_state st resp with h1 | h1
    · exact absurd h1 h
    · exact h1
  · intro st resp h
    rcases start_game_state st resp with h1 | h1
    · exact absurd h1 h
    · exact h1

/-- Witness for C2: a fresh (unauthenticated) launcher refuses `start_game`,
and a failed `login` (`err = 1`) leaves the fresh state unchanged. -/
theorem claim2_witness :
    Bsg.start_game Bsg.initState (.ok (.obj [])) = (.ok false, Bsg.initState) ∧
    (Bsg.login Bsg.initState (.ok (.obj [("err", .num 1)]))).2 = Bsg.initState :=
  ⟨claim2_lifecycle_failure_preserves_state.1 Bsg.initState (.ok (.obj [])) rfl,
   claim2_lifecycle_failure_preserves_state.2.1 Bsg.initState
     (.ok (.obj [("err", .num 1)]))
     (fun h => Bool.noConfusion (Except.ok.inj h))⟩

end TarkovData

namespace TarkovData

/-! ### Claim C3 -/

/-- C3's second half is false: `_safe_email` keeps only the first 12 hex
characters (48 bits) of the email's MD5, and truncated-MD5 collisions exist.
The distinct emails `u25146939` and `u22220262` (both with MD5 starting
`031e4116d406`) are mapped to the same `hwcode.txt` path. -/
theorem claim3_counterexample :
    ("u25146939" : String) ≠ "u22220262" ∧
    Bsg.hw_file_path "u25146939" = Bsg.hw_file_path "u22220262" :=
  ⟨by decide, by decide⟩

/-- C3 (amended): constructing a second time with the same email and storage
root returns the identical persisted identifier (loaded and stripped, not
regenerated — the fresh random seeds `t1..t8` are ignored) and leaves the
storage untouched; and two emails are mapped to the same identifier file path
exactly when their 12-hex-character truncated MD5 fingerprints coincide (so
distinct fingerprints give distinct paths, but truncated-MD5 collisions give
the same path). -/
theorem claim3_device_identifier_persistence :
    (∀ (fs : Bsg.FileSys) (email : String)
        (s1 s2 s3 s4 s5 s6 s7 s8 t1 t2 t3 t4 t5 t6 t7 t8 : List Nat),
      fs (Bsg.hw_file_path email) = none →
      Bsg.get_or_create_hw_code
          ((Bsg.get_or_create_hw_code fs email s1 s2 s3 s4 s5 s6 s7 s8).2)
          email t1 t2 t3 t4 t5 t6 t7 t8 =
        ((Bsg.get_or_create_hw_code fs email s1 s2 s3 s4 s5 s6 s7 s8).1,
         (Bsg.get_or_create_hw_code fs email s1 s2 s3 s4 s5 s6 s7 s8).2)) ∧
    (∀ e1 e2 : String,
      Bsg.hw_file_path e1 = Bsg.hw_file_path e2 ↔ Bsg.safe_email e1 = Bsg.safe_email e2) := by
  constructor
  · intro fs email s1 s2 s3 s4 s5 s6 s7 s8 t1 t2 t3 t4 t5 t6 t7 t8 h
    have h2 : Bsg.get_or_create_hw_code fs email s1 s2 s3 s4 s5 s6 s7 s8 =
        (Bsg.generate_hw_code s1 s2 s3 s4 s5 s6 s7 s8,
         Bsg.fsWrite fs (Bsg.hw_file_path email)
           (Bsg.generate_hw_code s1 s2 s3 s4 s5 s6 s7 s8)) := by
      unfold Bsg.get_or_create_hw_code
      rw [h]
    have h3 : Bsg.fsWrite fs (Bsg.hw_file_path email)
        (Bsg.generate_hw_code s1 s2 s3 s4 s5 s6 s7 s8) (Bsg.hw_file_path email) =
        some (Bsg.generate_hw_code s1 s2 s3 s4 s5 s6 s7 s8) := by
      unfold Bsg.fsWrite
      rw [if_pos rfl]
    rw [h2]
    show Bsg.get_or_create_hw_code
        (Bsg.fsWrite fs (Bsg.hw_file_path email)
          (Bsg.generate_hw_code s1 s2 s3 s4 s5 s6 s7 s8))
        email t1 t2 t3 t4 t5 t6 t7 t8 =
      (Bsg.generate_hw_code s1 s2 s3 s4 s5 s6 s7 s8,
       Bsg.fsWrite fs (Bsg.hw_file_path email)
         (Bsg.generate_hw_code s1 s2 s3 s4 s5 s6 s7 s8))
    unfold Bsg.get_or_create_hw_code
    rw [h3]
    show (Bsg.pyStrip (Bsg.generate_hw_code s1 s2 s3 s4 s5 s6 s7 s8),
          Bsg.fsWrite fs (Bsg.hw_file_path email)
            (Bsg.generate_hw_code s1 s2 s3 s4 s5 s6 s7 s8)) =
      (Bsg.generate_hw_code s1 s2 s3 s4 s5 s6 s7 s8,
       Bsg.fsWrite fs (Bsg.hw_file_path email)
         (Bsg.generate_hw_code s1 s2 s3 s4 s5 s6 s7 s8))
    rw [Bsg.pyStrip_generate_hw_code]
  · intro e1 e2
    simp [Bsg.hw_file_path]

/-- Witness for C3: a first construction over an empty store persists a code
that a second construction (with different random seeds) loads verbatim. -/
theorem claim3_device_identifier_persistence_witness :
    Bsg.get_or_create_hw_code
        ((Bsg.get_or_create_hw_code (fun _ => none) "a@b.c" [] [] [] [] [] [] [] []).2)
        "a@b.c" [1] [2] [3] [4] [5] [6] [7] [8] =
      ((Bsg.get_or_create_hw_code (fun _ => none) "a@b.c" [] [] [] [] [] [] [] []).1,
       (Bsg.get_or_create_hw_code (fun _ => none) "a@b.c" [] [] [] [] [] [] [] []).2) :=
  claim3_device_identifier_persistence.1 (fun _ => none) "a@b.c"
    [] [] [] [] [] [] [] [] [1] [2] [3] [4] [5] [6] [7] [8] rfl

/-! ### Claim C4 -/

/-- C4 is false for the tarkov.dev client: `_query` calls
`response.raise_for_status()`, so a 404 response raises `HTTPError` instead
of handing the (here even parseable) body to the caller. -/
theorem claim4_counterexample :
    TarkovDev.query_decode toyEnv ⟨[], "null", 404⟩ = .error .httpError ∧
    toyEnv.jsonParse "null" = some .null :=
  ⟨rfl, rfl⟩

/-- C4 (amended): the two BSG request paths never fail on the HTTP status —
the `eft_api` decode path does not consult the status at all, and the
launcher decode path never raises an `HTTPError` — but the tarkov.dev
`_query` raises `HTTPError` for every status in `[400, 600)` and returns the
parsed body only for the remaining statuses. -/
theorem claim4_status_handling :
    (∀ (env : PyEnv) (c : List Nat) (t : String) (st1 st2 : Nat),
      EFTApi.request_decode env ⟨c, t, st1⟩ = EFTApi.request_decode env ⟨c, t, st2⟩) ∧
    (∀ (env : PyEnv) (resp : HttpResponse),
      Bsg.launcher_request_decode env resp ≠ .error .httpError) ∧
    (∀ (env : PyEnv) (resp : HttpResponse), 400 ≤ resp.status → resp.status < 600 →
      TarkovDev.query_decode env resp = .error .httpError) ∧
    (∀ (env : PyEnv) (resp : HttpResponse) (v : JValue),
      ¬(400 ≤ resp.status ∧ resp.status < 600) → env.jsonParse resp.text = some v →
      TarkovDev.query_decode env resp = .ok v) := by
  refine ⟨fun env c t st1 st2 => rfl, ?_, ?_, ?_⟩
  · intro env resp h
    unfold Bsg.launcher_request_decode at h
    repeat' split at h
    all_goals first
      | exact PyErr.noConfusion (Except.error.inj h)
      | exact Except.noConfusion h
  · intro env resp h1 h2
    unfold TarkovDev.query_decode
    rw [if_pos ⟨h1, h2⟩]
  · intro env resp v hn hp
    unfold TarkovDev.query_decode
    rw [if_neg hn, hp]

/-- Witness for C4: a 500 response raises, a 200 response with body `null`
parses. -/
theorem claim4_status_handling_witness :
    TarkovDev.query_decode toyEnv ⟨[], "x", 500⟩ = .error .httpError ∧
    TarkovDev.query_decode toyEnv ⟨[], "null", 200⟩ = .ok .null :=
  ⟨claim4_status_handling.2.2.1 toyEnv ⟨[], "x", 500⟩ (by decide) (by decide),
   claim4_status_handling.2.2.2 toyEnv ⟨[], "null", 200⟩ .null (by decide) rfl⟩

/-! ### Claim C5 -/

/-- Successful decompression path of `_decompress_response`. -/
theorem decompress_response_ok (env : PyEnv) (data d : List Nat) (s : String)
    (hz : env.zlibDecompress data = some d) (hu : env.utf8Decode d = some s) :
    EFTApi.decompress_response env data = .ok s := by
  unfold EFTApi.decompress_response
  rw [hz]
  show (match env.utf8Decode d with
        | some s => Except.ok s
        | none => Except.error PyErr.unicodeDecodeError) = Except.ok s
  rw [hu]

/-- Successful parse path of `_request`. -/
theorem request_decode_ok (env : PyEnv) (resp : HttpResponse) (s : String) (v : JValue)
    (hd : EFTApi.decompress_response env resp.content = .ok s)
    (hj : env.jsonParse s = some v) :
    EFTApi.request_decode env resp = v := by
  unfold EFTApi.request_decode
  rw [hd]
  show (match env.jsonParse s with
        | some v => v
        | none => EFTApi.parse_error_value resp.text) = v
  rw [hj]

/-- C5: serializing a JSON-serializable value, compressing the UTF-8 bytes
with zlib, and passing the bytes through the `eft_api` decode path yields
back the original value — given that the involved library functions are the
codecs they are (zlib round-trips losslessly, the UTF-8 codec round-trips,
and `json.loads` inverts `json.dumps` on the value). -/
theorem claim5_decode_roundtrip (env : PyEnv) (v : JValue) (resp : HttpResponse)
    (hcontent : resp.content = env.zlibCompress (utf8Bytes (env.jsonSerialize v)))
    (hz : env.zlibDecompress (env.zlibCompress (utf8Bytes (env.jsonSerialize v))) =
      some (utf8Bytes (env.jsonSerialize v)))
    (hu : env.utf8Decode (utf8Bytes (env.jsonSerialize v)) = some (env.jsonSerialize v))
    (hj : env.jsonParse (env.jsonSerialize v) = some v) :
    EFTApi.request_decode env resp = v :=
  request_decode_ok env resp (env.jsonSerialize v) v
    (by rw [hcontent]; exact decompress_response_ok env _ _ _ hz hu) hj

/-- Witness for C5: the concrete lossless environment round-trips `null`. -/
theorem claim5_decode_roundtrip_witness :
    EFTApi.request_decode toyEnv
        ⟨toyEnv.zlibCompress (utf8Bytes (toyEnv.jsonSerialize .null)), "", 200⟩ = .null :=
  claim5_decode_roundtrip toyEnv .null
    ⟨toyEnv.zlibCompress (utf8Bytes (toyEnv.jsonSerialize .null)), "", 200⟩
    rfl rfl (by decide) rfl

end TarkovData

namespace TarkovData

/-! ### Claim C6 -/

/-- The `GClient-RequestId` entry appended by `_headers` is found by header
lookup. -/
theorem headerLookup_requestId (st : Bsg.LauncherState) (uv cv v : String) :
    Bsg.headerLookup (Bsg.client_headers st uv cv ++ [("GClient-RequestId", v)])
      "GClient-RequestId" = some v := rfl

/-- Closed form of `n` consecutive requests starting from counter value `k`. -/
theorem runRequests_spec (st : Bsg.LauncherState) (uv cv : String) :
    ∀ (n k : Nat), Bsg.runRequests st uv cv n ⟨k⟩ =
      (⟨k + n⟩, (List.range' (k + 1) n).map toString) := by
  intro n
  induction n with
  | zero => intro k; rfl
  | succ n ih =>
    intro k
    show (let r := Bsg.headers st uv cv ⟨k⟩
          let rest := Bsg.runRequests st uv cv n r.1
          (rest.1, ((Bsg.headerLookup r.2 "GClient-RequestId").getD "") :: rest.2)) = _
    show (let rest := Bsg.runRequests st uv cv n ⟨k + 1⟩
          (rest.1,
           ((Bsg.headerLookup
               (Bsg.client_headers st uv cv ++ [("GClient-RequestId", toString (k + 1))])
               "GClient-RequestId").getD "") :: rest.2)) = _
    rw [show (List.range' (k + 1) (n + 1)).map toString =
          toString (k + 1) :: (List.range' (k + 1 + 1) n).map toString from rfl]
    rw [show k + (n + 1) = (k + 1) + n by omega]
    rw [headerLookup_requestId]
    show (Bsg.runRequests st uv cv n ⟨k + 1⟩ |>.1,
          toString (k + 1) :: (Bsg.runRequests st uv cv n ⟨k + 1⟩ |>.2)) = _
    rw [ih (k + 1)]

/-- C6: from a fresh game client (`request_id = 0`), a run of `n` requests
attaches the values `str(1), str(2), ..., str(n)` — each request recomputes
its headers and increments the counter exactly once, the counter ends at `n`,
and the attached sequence is strictly increasing by one. -/
theorem claim6_request_counter (st : Bsg.LauncherState) (uv cv : String) (n : Nat) :
    Bsg.runRequests st uv cv n ⟨0⟩ = (⟨n⟩, (List.range' 1 n).map toString) ∧
    (∀ i (h : i < n),
      (List.range' 1 n).get ⟨i, by simpa using h⟩ = i + 1) := by
  constructor
  · simpa using runRequests_spec st uv cv n 0
  · intro i h
    simp [List.get_eq_getElem, List.getElem_range'_1, Nat.add_comm]

/-- Witness for C6: three requests from a fresh client attach `1`, `2`, `3`. -/
theorem claim6_request_counter_witness :
    Bsg.runRequests Bsg.initState "u" "c" 3 ⟨0⟩ = (⟨3⟩, ["1", "2", "3"]) ∧
    (List.range' 1 3).get ⟨1, by decide⟩ = 2 :=
  ⟨((claim6_request_counter Bsg.initState "u" "c" 3).1).trans (by decide),
   (claim6_request_counter Bsg.initState "u" "c" 3).2 1 (by decide)⟩

/-! ### Claim C7 -/

/-- The per-endpoint loop is a pointwise map: one outcome per entry. -/
theorem run_endpoints_eq_map (entries : List (String × Except PyErr JValue)) :
    Bsg.run_endpoints entries = entries.map Bsg.process_entry := by
  induction entries with
  | nil => rfl
  | cons e rest ih =>
    show Bsg.process_entry e :: Bsg.run_endpoints rest = _
    rw [ih, List.map_cons]

/-- C7: the loop never aborts — it produces exactly one outcome per catalog
entry, in order; the outcome of entry `i` depends only on entry `i` (a file
`name + ".json"` is recorded on success), and the recorded failures are
exactly the entries whose fetch failed (raised, or embedded error code not
zero). -/
theorem claim7_loop_isolation (entries : List (String × Except PyErr JValue)) :
    (Bsg.run_endpoints entries).length = entries.length ∧
    (∀ i (h : i < entries.length) (h2 : i < (Bsg.run_endpoints entries).length),
      (Bsg.run_endpoints entries).get ⟨i, h2⟩ =
        (if Bsg.entry_ok (entries.get ⟨i, h⟩).2
         then .saved ((entries.get ⟨i, h⟩).1 ++ ".json") else .failed) ∧
      ((Bsg.run_endpoints entries).get ⟨i, h2⟩ = .failed ↔
        Bsg.entry_ok (entries.get ⟨i, h⟩).2 = false)) := by
  refine ⟨by rw [run_endpoints_eq_map, List.length_map], ?_⟩
  intro i h h2
  have hg : (Bsg.run_endpoints entries).get ⟨i, h2⟩ =
      Bsg.process_entry (entries.get ⟨i, h⟩) := by
    simp only [List.get_eq_getElem, run_endpoints_eq_map, List.getElem_map]
  constructor
  · rw [hg]
    rfl
  · rw [hg]
    unfold Bsg.process_entry
    by_cases hok : Bsg.entry_ok (entries.get ⟨i, h⟩).2 = true
    · rw [if_pos hok, hok]
      simp
    · rw [if_neg hok]
      rw [Bool.not_eq_true] at hok
      rw [hok]
      simp

/-- Witness for C7: a three-entry run whose middle fetch raised — all three
entries are processed, outcomes in order: saved, failed, saved. -/
theorem claim7_loop_isolation_witness :
    (Bsg.run_endpoints
        [("globals", .ok (.obj [("err", .num 0)])),
         ("items", .error (.generic "ConnectionError")),
         ("locale_en", .ok (.obj [("err", .num 0), ("data", .null)]))]).length = 3 ∧
    (Bsg.run_endpoints
        [("globals", .ok (.obj [("err", .num 0)])),
         ("items", .error (.generic "ConnectionError")),
         ("locale_en", .ok (.obj [("err", .num 0), ("data", .null)]))]).get ⟨1, by decide⟩ =
      .failed :=
  ⟨((claim7_loop_isolation _).1).trans rfl,
   (((claim7_loop_isolation
      [("globals", .ok (.obj [("err", .num 0)])),
       ("items", .error (.generic "ConnectionError")),
       ("locale_en", .ok (.obj [("err", .num 0), ("data", .null)]))]).2
      1 (by decide) (by decide)).1).trans rfl⟩

end TarkovData

namespace TarkovData

/-! ### Claim C8 -/

/-- C8: every generated device identifier (whatever the eight random byte
strings hashed by `random_md5` were) is the literal `#1-` followed by three
colon-joined 32-hex-character groups, then a dash, then four dash-joined
32-hex-character groups, then a dash and one 24-hex-character group, all
characters lowercase hex. -/
theorem claim8_hw_code_format (s1 s2 s3 s4 s5 s6 s7 s8 : List Nat) :
    ∃ h1 h2 h3 h4 h5 h6 h7 h8 : List Char,
      (h1.length = 32 ∧ ∀ c ∈ h1, c ∈ lowercaseHexDigits) ∧
      (h2.length = 32 ∧ ∀ c ∈ h2, c ∈ lowercaseHexDigits) ∧
      (h3.length = 32 ∧ ∀ c ∈ h3, c ∈ lowercaseHexDigits) ∧
      (h4.length = 32 ∧ ∀ c ∈ h4, c ∈ lowercaseHexDigits) ∧
      (h5.length = 32 ∧ ∀ c ∈ h5, c ∈ lowercaseHexDigits) ∧
      (h6.length = 32 ∧ ∀ c ∈ h6, c ∈ lowercaseHexDigits) ∧
      (h7.length = 32 ∧ ∀ c ∈ h7, c ∈ lowercaseHexDigits) ∧
      (h8.length = 24 ∧ ∀ c ∈ h8, c ∈ lowercaseHexDigits) ∧
      (Bsg.generate_hw_code s1 s2 s3 s4 s5 s6 s7 s8).data =
        ['#', '1', '-'] ++ h1 ++ [':'] ++ h2 ++ [':'] ++ h3 ++ ['-'] ++ h4 ++ ['-'] ++ h5 ++
        ['-'] ++ h6 ++ ['-'] ++ h7 ++ ['-'] ++ h8 := by
  refine ⟨md5HexChars s1, md5HexChars s2, md5HexChars s3, md5HexChars s4, md5HexChars s5,
    md5HexChars s6, md5HexChars s7, (md5HexChars s8).take 24,
    ⟨md5HexChars_length s1, fun c hc => md5HexChars_mem s1 hc⟩,
    ⟨md5HexChars_length s2, fun c hc => md5HexChars_mem s2 hc⟩,
    ⟨md5HexChars_length s3, fun c hc => md5HexChars_mem s3 hc⟩,
    ⟨md5HexChars_length s4, fun c hc => md5HexChars_mem s4 hc⟩,
    ⟨md5HexChars_length s5, fun c hc => md5HexChars_mem s5 hc⟩,
    ⟨md5HexChars_length s6, fun c hc => md5HexChars_mem s6 hc⟩,
    ⟨md5HexChars_length s7, fun c hc => md5HexChars_mem s7 hc⟩,
    ⟨?_, fun c hc => md5HexChars_mem s8 (List.take_subset 24 _ hc)⟩, ?_⟩
  · rw [List.length_take, md5HexChars_length]
    decide
  · rw [Bsg.generate_hw_code_eq]

/-! ### Claim C9 -/

/-- C9: the `pass` field of both clients' login payloads is exactly
`hashlib.md5(password.encode()).hexdigest()` — the MD5 digest of the raw
UTF-8 password bytes — encoded as 32 lowercase hexadecimal characters; both
clients compute the identical digest (and, being a function of the password
alone, the same password always yields the same value). -/
theorem claim9_password_hash (email password hwCode : String) :
    pyGet (Bsg.login_payload email password hwCode) "pass" .null =
      .ok (.str (md5Hex (utf8Bytes password))) ∧
    pyGet (EFTApi.login_data email password) "pass" .null =
      .ok (.str (md5Hex (utf8Bytes password))) ∧
    EFTApi.compute_password_hash password = Bsg.md5_password password ∧
    (Bsg.md5_password password).length = 32 ∧
    ∀ c ∈ (Bsg.md5_password password).data, c ∈ lowercaseHexDigits := by
  refine ⟨rfl, rfl, rfl, md5HexChars_length (utf8Bytes password),
    fun c hc => md5HexChars_mem (utf8Bytes password) hc⟩

/-- Witness for C9 at the password `secret`: the transmitted field is the
known MD5 digest, whose first character is a lowercase hex digit. -/
theorem claim9_password_hash_witness :
    pyGet (Bsg.login_payload "a@b.c" "secret" "#1-x") "pass" .null =
      .ok (.str (md5Hex (utf8Bytes "secret"))) ∧
    md5Hex (utf8Bytes "secret") = "5ebe2294ecd0e0f08eab7690d2a6ee69" ∧
    ('5' : Char) ∈ lowercaseHexDigits :=
  ⟨(claim9_password_hash "a@b.c" "secret" "#1-x").1, by decide,
   (claim9_password_hash "a@b.c" "secret" "#1-x").2.2.2.2 '5' (by decide)⟩

/-! ### Claim C10 -/

/-- C10: when the GraphQL response object lacks the `data` key, every
list-returning extraction yields the empty list and `get_item_by_id` yields
`None`; likewise when `data` is present (as an object) but lacks the queried
field. -/
theorem claim10_missing_data_defaults :
    (∀ kvs, jLookup kvs "data" = none →
      TarkovDev.get_all_items_extract (.obj kvs) = .ok (.arr []) ∧
      TarkovDev.get_all_maps_extract (.obj kvs) = .ok (.arr []) ∧
      TarkovDev.get_barters_extract (.obj kvs) = .ok (.arr []) ∧
      TarkovDev.get_item_by_id_extract (.obj kvs) = .ok .null) ∧
    (∀ kvs dkvs, jLookup kvs "data" = some (.obj dkvs) →
      (jLookup dkvs "items" = none →
        TarkovDev.get_all_items_extract (.obj kvs) = .ok (.arr [])) ∧
      (jLookup dkvs "maps" = none →
        TarkovDev.get_all_maps_extract (.obj kvs) = .ok (.arr [])) ∧
      (jLookup dkvs "barters" = none →
        TarkovDev.get_barters_extract (.obj kvs) = .ok (.arr [])) ∧
      (jLookup dkvs "item" = none →
        TarkovDev.get_item_by_id_extract (.obj kvs) = .ok .null)) := by
  constructor
  · intro kvs h
    refine ⟨?_, ?_, ?_, ?_⟩ <;>
      simp [TarkovDev.get_all_items_extract, TarkovDev.get_all_maps_extract,
        TarkovDev.get_barters_extract, TarkovDev.get_item_by_id_extract,
        pyGet, jLookup, h, Except.bind]
  · intro kvs dkvs h
    refine ⟨?_, ?_, ?_, ?_⟩ <;> intro h2 <;>
      simp [TarkovDev.get_all_items_extract, TarkovDev.get_all_maps_extract,
        TarkovDev.get_barters_extract, TarkovDev.get_item_by_id_extract,
        pyGet, jLookup, h, h2, Except.bind]

/-- Witness for C10: the empty response object and a response whose `data`
object is empty. -/
theorem claim10_missing_data_defaults_witness :
    TarkovDev.get_all_items_extract (.obj []) = .ok (.arr []) ∧
    TarkovDev.get_item_by_id_extract (.obj [("data", .obj [])]) = .ok .null :=
  ⟨(claim10_missing_data_defaults.1 [] rfl).1,
   (claim10_missing_data_defaults.2 [("data", .obj [])] [] rfl).2.2.2 rfl⟩

end TarkovData
